import Mathlib

/-!
Shallow embedding of the limnoria-gitlab plugin (src/plugin.py together with
the default templates of src/config.py).

The plugin receives GitLab webhook POSTs (`GitlabWebHookService.doPost`),
validates the request path `/<network>/<channel>`, decodes the JSON body,
and hands the payload to `GitlabHandler.handle_payload`, which matches the
event against every channel's subscribed projects and, for push events,
renders one summary message plus one message per commit
(`GitlabHandler._push_hook`, `_build_message`).  Subscription management is
`Gitlab.gitlab.project.add` / `remove` / `list` over a per-channel
slug-to-url mapping.

Python dictionaries are embedded as association lists (`Context`), format
strings as lists of literal/placeholder parts, and exceptions (KeyError on
a missing format placeholder, UnboundLocalError/JSON decode errors in
`doPost`) as `Option`/error flags threaded explicitly.
-/

namespace GitlabPlugin

/-- Values of a decoded JSON payload dictionary, as far as the plugin
inspects them: strings, integers, and nested objects. -/
inductive Value where
  | str (s : String)
  | nat (n : Nat)
  | obj (fields : List (String × Value))

/-- A Python dict, embedded as an association list; lookups take the first
(most recently inserted, since the handler prepends) binding. -/
abbrev Context := List (String × Value)

/-- Dictionary lookup (Python `d[key]`, `key in d`). -/
def lookupCtx : Context → String → Option Value
  | [], _ => none
  | (k, v) :: rest, key => if k == key then some v else lookupCtx rest key

/-- How a value prints when substituted into a format string
(`str.format`).  The plugin's templates only ever substitute strings,
integers, and single sub-fields of objects, so whole objects never reach
this point in practice; they are rendered opaquely. -/
def Value.render : Value → String
  | .str s => s
  | .nat n => toString n
  | .obj _ => ""

/-- One piece of a Python format string: a literal run, or a placeholder
of the shape left-brace name right-brace or name[sub] as used by the
plugin's templates (config.py). -/
inductive TemplatePart where
  | lit (s : String)
  | hole (name : String) (sub : Option String)

/-- A parsed format string. -/
abbrev Template := List TemplatePart

/-- Resolving one placeholder against the context: `args[name]`, or
`args[name][sub]`.  Returns `none` exactly when Python's `str.format`
raises (KeyError on a missing key, or indexing a non-object). -/
def holeValue (ctx : Context) (name : String) (sub : Option String) : Option Value :=
  match lookupCtx ctx name, sub with
  | none, _ => none
  | some v, none => some v
  | some (.obj fields), some s => lookupCtx fields s
  | some _, some _ => none

/-- `format_string.format(**args)` (plugin.py `_build_message` line 132):
substitutes every placeholder, or fails (`none`) on the first placeholder
absent from the context. -/
def renderParts : Template → Context → Option String
  | [], _ => some ""
  | .lit s :: rest, ctx => (renderParts rest ctx).map (fun r => s ++ r)
  | .hole n sub :: rest, ctx =>
    match holeValue ctx n sub with
    | none => none
    | some v => (renderParts rest ctx).map (fun r => v.render ++ r)

/-- The per-channel format-template registry:
`registryValue('format.' ++ identifier, channel)`, with the format string
already parsed into parts. -/
abbrev Registry := String → String → Template

/-- A commit entry of a push payload: its `id` plus the remaining fields
of the commit dictionary. -/
structure Commit where
  id : String
  fields : Context

/-- The decoded webhook payload.  The structured fields mirror exactly the
keys `handle_payload` / `_push_hook` read (`repository.homepage`,
`object_attributes.url`, `project_id`, `commits`); `fields` holds the
payload's remaining top-level entries, available to templates. -/
structure Payload where
  repository_homepage : String
  object_attributes_url : String
  project_id : Nat
  commits : List Commit
  fields : Context

/-- `commit['id'][0:10]` (plugin.py line 113): Python slicing, which never
fails and returns at most the first 10 characters. -/
def shortId (id : String) : String := ⟨id.data.take 10⟩

/-- The `project` object injected into render contexts:
`{'id': payload['project_id'], 'name': slug}` (plugin.py lines 98-101,
109-112). -/
def projectValue (pid : Nat) (slug : String) : Value :=
  .obj [("id", .nat pid), ("name", .str slug)]

/-- Render context of the push summary message: the payload dictionary
after `payload['project'] = ...` (plugin.py lines 98-104). -/
def pushCtx (slug : String) (p : Payload) : Context :=
  ("project", projectValue p.project_id slug) :: p.fields

/-- Render context of one commit message: the commit dictionary after
`commit['project'] = ...` and `commit['short_id'] = commit['id'][0:10]`
(plugin.py lines 108-115). -/
def commitCtx (pid : Nat) (slug : String) (c : Commit) : Context :=
  ("short_id", .str (shortId c.id)) ::
  ("project", projectValue pid slug) ::
  ("id", .str c.id) :: c.fields

/-- The five supported values of the X-Gitlab-Event header
(plugin.py line 67). -/
inductive EventType where
  | push
  | tagPush
  | note
  | issue
  | mergeRequest
deriving DecidableEq

/-- Recognition of the event-type header value (plugin.py lines 66-69):
exactly the five literal strings are supported. -/
def eventTypeOfHeader : String → Option EventType
  | "Push Hook" => some .push
  | "Tag Push Hook" => some .tagPush
  | "Note Hook" => some .note
  | "Issue Hook" => some .issue
  | "Merge Request Hook" => some .mergeRequest
  | _ => none

/-- `pat` occurs at the start of `s` (character-wise). -/
def leadsWith : List Char → List Char → Bool
  | [], _ => true
  | _ :: _, [] => false
  | a :: pat, b :: s => a == b && leadsWith pat s

/-- `pat` occurs contiguously somewhere in `s`. -/
def occursIn (pat : List Char) : List Char → Bool
  | [] => pat.isEmpty
  | b :: rest => leadsWith pat (b :: rest) || occursIn pat rest

/-- Python's substring test `needle in hay` on strings. -/
def strContains (hay needle : String) : Bool :=
  occursIn needle.data hay.data

/-- The per-subscription match test of `handle_payload` (plugin.py lines
76-83): exact equality against `repository.homepage` for push / tag-push /
note events, substring containment in `object_attributes.url` for issue /
merge-request events. -/
def matchesSub (et : EventType) (url : String) (p : Payload) : Bool :=
  match et with
  | .push | .tagPush | .note => url == p.repository_homepage
  | .issue | .mergeRequest => strContains p.object_attributes_url url

/-- Messages enqueued to IRC by one handler invocation, plus whether an
exception escaped it (a KeyError from `str.format`). -/
structure SendTrace where
  sent : List (String × String)
  error : Bool

/-- The commit loop of `_push_hook` (plugin.py lines 108-116): one message
per commit, in payload order; a format KeyError aborts the loop, keeping
the messages already sent. -/
def sendCommits (reg : Registry) (channel slug : String) (pid : Nat) :
    List Commit → SendTrace
  | [] => ⟨[], false⟩
  | c :: cs =>
    match renderParts (reg channel "commit") (commitCtx pid slug c) with
    | none => ⟨[], true⟩
    | some m =>
      let r := sendCommits reg channel slug pid cs
      ⟨(channel, m) :: r.sent, r.error⟩

/-- `_push_hook` (plugin.py lines 97-116): the summary message from the
`push` template, then the commit messages. -/
def pushHook (reg : Registry) (channel slug : String) (p : Payload) : SendTrace :=
  match renderParts (reg channel "push") (pushCtx slug p) with
  | none => ⟨[], true⟩
  | some m =>
    let r := sendCommits reg channel slug p.project_id p.commits
    ⟨(channel, m) :: r.sent, r.error⟩

/-- Outcome of `handle_payload`: which (channel, slug, url) subscriptions
were dispatched to a type-specific handler, the messages enqueued, and
whether an exception escaped. -/
structure HookResult where
  dispatched : List (String × String × String)
  sent : List (String × String)
  error : Bool

/-- One iteration of the subscription loop (plugin.py lines 74-95): skip
the entry unless it matches, then dispatch by event type.  The tag-push,
note, issue, and merge-request handlers are no-op stubs (lines 118-128). -/
def handleEntry (reg : Registry) (et : EventType) (p : Payload)
    (channel slug url : String) : HookResult :=
  if matchesSub et url p then
    match et with
    | .push =>
      let r := pushHook reg channel slug p
      ⟨[(channel, slug, url)], r.sent, r.error⟩
    | _ => ⟨[(channel, slug, url)], [], false⟩
  else ⟨[], [], false⟩

/-- The loop over one channel's subscriptions; an escaping exception
aborts the remaining iterations. -/
def handleSubs (reg : Registry) (et : EventType) (p : Payload)
    (channel : String) : List (String × String) → HookResult
  | [] => ⟨[], [], false⟩
  | (slug, url) :: rest =>
    let r := handleEntry reg et p channel slug url
    if r.error then r
    else
      let r2 := handleSubs reg et p channel rest
      ⟨r.dispatched ++ r2.dispatched, r.sent ++ r2.sent, r2.error⟩

/-- The loop over every joined channel (plugin.py line 72); an escaping
exception aborts the remaining channels too. -/
def handleChannels (reg : Registry) (et : EventType) (p : Payload)
    (projects : String → List (String × String)) :
    List String → HookResult
  | [] => ⟨[], [], false⟩
  | ch :: rest =>
    let r := handleSubs reg et p ch (projects ch)
    if r.error then r
    else
      let r2 := handleChannels reg et p projects rest
      ⟨r.dispatched ++ r2.dispatched, r.sent ++ r2.sent, r2.error⟩

/-- Header lookup in the request's header dictionary. -/
def lookupHeader : List (String × String) → String → Option String
  | [], _ => none
  | (k, v) :: rest, key => if k == key then some v else lookupHeader rest key

/-- `GitlabHandler.handle_payload` (plugin.py lines 61-95): a missing or
unsupported X-Gitlab-Event header is a logged no-op; otherwise every
joined channel's subscriptions are matched and dispatched. -/
def handle_payload (reg : Registry) (channels : List String)
    (projects : String → List (String × String))
    (headers : List (String × String)) (p : Payload) : HookResult :=
  match lookupHeader headers "X-Gitlab-Event" with
  | none => ⟨[], [], false⟩
  | some v =>
    match eventTypeOfHeader v with
    | none => ⟨[], [], false⟩
    | some et => handleChannels reg et p projects channels

/-- An HTTP response written by the service: `_send_error` sends 403 with
a plain-text message (plugin.py lines 152-156), `_send_ok` sends 200 with
body OK (lines 158-162). -/
inductive Resp where
  | err403 (msg : String)
  | ok200 (body : String)
deriving DecidableEq

/-- The 403 message of the malformed-path branch (plugin.py lines
175-177; the source string carries i18n indentation, collapsed here). -/
def pathErrorMsg : String :=
  "Error: You need to provide the network name and the channel in url."

/-- The 403 message of the JSON-decode failure branch (plugin.py 187). -/
def invalidJsonMsg : String := "Error: Invalid JSON data sent."

/-- The 403 message of the handle_payload exception branch (plugin.py 193). -/
def invalidDataMsg : String := "Error: Invalid data sent."

/-- Python `path.split(sep)` on characters: always at least one (possibly
empty) component. -/
def splitChars (sep : Char) : List Char → List (List Char)
  | [] => [[]]
  | c :: rest =>
    let r := splitChars sep rest
    if c == sep then [] :: r
    else
      match r with
      | [] => [[c]]
      | h :: t => (c :: h) :: t

/-- `path.split('/')[1:]` (plugin.py line 171). -/
def pathParts (path : String) : List String :=
  ((splitChars '/' path.data).map (fun l => ⟨l⟩)).drop 1

/-- Result of one `doPost` invocation: the HTTP responses written to the
handler, in order (the source can write more than one per request), and
the chat messages enqueued. -/
structure PostResult where
  responses : List Resp
  sent : List (String × String)

/-- `GitlabWebHookService.doPost` (plugin.py lines 164-196).

`net` is the bot's connected network, `channels` its joined channels,
`body` the decoded JSON payload (`none` when the body is not valid JSON).

Faithful to the source's control flow:
* fewer than two path components raise IndexError: 403 and return
  (lines 170-178);
* network/channel scope mismatch returns silently, no response (180-181);
* a JSON decode failure sends 403 but does NOT return (no `return` on
  line 187); the subsequent `handle_payload(headers, payload)` call then
  raises UnboundLocalError on the unassigned local `payload`, which the
  second `try` catches, logging it and sending a second 403 (189-193);
  control still falls through to `_send_ok` (196);
* an exception escaping `handle_payload` (a format KeyError) is caught,
  logged, and answered with 403 — and then `_send_ok` also runs. -/
def doPost (net : String) (channels : List String)
    (projects : String → List (String × String)) (reg : Registry)
    (headers : List (String × String)) (path : String)
    (body : Option Payload) : PostResult :=
  match pathParts path with
  | [] => ⟨[.err403 pathErrorMsg], []⟩
  | [_] => ⟨[.err403 pathErrorMsg], []⟩
  | network :: chanName :: _ =>
    let channel := "#" ++ chanName
    if !(net == network) || !(channels.contains channel) then ⟨[], []⟩
    else
      match body with
      | none =>
        ⟨[.err403 invalidJsonMsg, .err403 invalidDataMsg, .ok200 "OK"], []⟩
      | some p =>
        let r := handle_payload reg channels projects headers p
        if r.error then ⟨[.err403 invalidDataMsg, .ok200 "OK"], r.sent⟩
        else ⟨[.ok200 "OK"], r.sent⟩

/-- A channel's stored project subscriptions: the slug-to-url mapping kept
(JSON-encoded) in the `projects` registry value; slugs are unique. -/
abbrev Projects := List (String × String)

/-- `project_slug in projects` (plugin.py lines 253, 276). -/
def hasSlug (ps : Projects) (slug : String) : Bool :=
  ps.any (fun e => e.1 == slug)

/-- Reply of a subscription command: `irc.replySuccess()` or
`irc.error(...)`. -/
inductive CmdReply where
  | success
  | errored (msg : String)
deriving DecidableEq

/-- Outcome of a subscription mutation: the reply, the stored mapping
after the command, and whether `_save_projects` was invoked. -/
structure StoreOutcome where
  reply : CmdReply
  projects : Projects
  saved : Bool

/-- `Gitlab.gitlab.project.add` (plugin.py lines 243-263), after the
capability check: duplicate slugs are refused without saving; otherwise
the new slug-url pair is stored. -/
def addCmd (stored : Projects) (slug url : String) : StoreOutcome :=
  if hasSlug stored slug then
    ⟨.errored "This project is already announced to this channel.", stored, false⟩
  else
    ⟨.success, stored ++ [(slug, url)], true⟩

/-- `Gitlab.gitlab.project.remove` (plugin.py lines 266-286), after the
capability check: absent slugs are refused without saving; otherwise the
slug's entry is deleted. -/
def removeCmd (stored : Projects) (slug : String) : StoreOutcome :=
  if !hasSlug stored slug then
    ⟨.errored "This project is not registered to this channel.", stored, false⟩
  else
    ⟨.success, stored.filter (fun e => !(e.1 == slug)), true⟩

/-- `Gitlab.gitlab.project.list` (plugin.py lines 289-305): the current
mapping, one reply line per entry (empty mappings get an error reply,
irrelevant to the entries themselves). -/
def listCmd (stored : Projects) : Projects := stored

/-- A template registry whose format strings always expand: no referenced
placeholder is missing, so `str.format` never raises.  Normal operation of
the plugin (the default config.py templates against full GitLab payloads)
satisfies this. -/
def RegTotal (reg : Registry) : Prop :=
  ∀ ch ident ctx, (renderParts (reg ch ident) ctx).isSome = true

theorem RegTotal.some {reg : Registry} (h : RegTotal reg)
    (ch ident : String) (ctx : Context) :
    ∃ m, renderParts (reg ch ident) ctx = some m := by
  cases hr : renderParts (reg ch ident) ctx with
  | none => have := h ch ident ctx; rw [hr] at this; cases this
  | some m => exact ⟨m, rfl⟩

theorem sendCommits_error_eq_false {reg : Registry} (h : RegTotal reg)
    (ch slug : String) (pid : Nat) (cs : List Commit) :
    (sendCommits reg ch slug pid cs).error = false := by
  induction cs with
  | nil => rfl
  | cons c cs ih =>
    obtain ⟨m, hm⟩ := h.some ch "commit" (commitCtx pid slug c)
    simp only [sendCommits, hm]
    exact ih

theorem pushHook_error_eq_false {reg : Registry} (h : RegTotal reg)
    (ch slug : String) (p : Payload) :
    (pushHook reg ch slug p).error = false := by
  obtain ⟨m, hm⟩ := h.some ch "push" (pushCtx slug p)
  simp only [pushHook, hm]
  exact sendCommits_error_eq_false h ch slug p.project_id p.commits

theorem handleEntry_error_eq_false {reg : Registry} (h : RegTotal reg)
    (et : EventType) (p : Payload) (ch slug url : String) :
    (handleEntry reg et p ch slug url).error = false := by
  unfold handleEntry
  split
  · cases et
    case push => exact pushHook_error_eq_false h ch slug p
    all_goals rfl
  · rfl

theorem handleEntry_dispatched_eq {reg : Registry} (et : EventType)
    (p : Payload) (ch slug url : String) :
    (handleEntry reg et p ch slug url).dispatched =
      if matchesSub et url p then [(ch, slug, url)] else [] := by
  unfold handleEntry
  split
  · cases et <;> simp_all
  · simp_all

theorem handleSubs_error_eq_false {reg : Registry} (h : RegTotal reg)
    (et : EventType) (p : Payload) (ch : String)
    (entries : List (String × String)) :
    (handleSubs reg et p ch entries).error = false := by
  induction entries with
  | nil => rfl
  | cons e rest ih =>
    obtain ⟨slug, url⟩ := e
    simp only [handleSubs, handleEntry_error_eq_false h, Bool.false_eq_true,
      if_false]
    exact ih

theorem handleSubs_dispatched_eq {reg : Registry} (h : RegTotal reg)
    (et : EventType) (p : Payload) (ch : String)
    (entries : List (String × String)) :
    (handleSubs reg et p ch entries).dispatched =
      (entries.filter (fun e => matchesSub et e.2 p)).map
        (fun e => (ch, e.1, e.2)) := by
  induction entries with
  | nil => rfl
  | cons e rest ih =>
    obtain ⟨slug, url⟩ := e
    simp only [handleSubs, handleEntry_error_eq_false h, Bool.false_eq_true,
      if_false]
    rw [handleEntry_dispatched_eq, ih]
    by_cases hm : matchesSub et url p
    · simp [hm, List.filter_cons]
    · simp [hm, List.filter_cons]

theorem handleChannels_error_eq_false {reg : Registry} (h : RegTotal reg)
    (et : EventType) (p : Payload)
    (projects : String → List (String × String)) (chans : List String) :
    (handleChannels reg et p projects chans).error = false := by
  induction chans with
  | nil => rfl
  | cons ch rest ih =>
    simp only [handleChannels, handleSubs_error_eq_false h,
      Bool.false_eq_true, if_false]
    exact ih

theorem handleChannels_dispatched_eq {reg : Registry} (h : RegTotal reg)
    (et : EventType) (p : Payload)
    (projects : String → List (String × String)) (chans : List String) :
    (handleChannels reg et p projects chans).dispatched =
      chans.flatMap (fun ch =>
        ((projects ch).filter (fun e => matchesSub et e.2 p)).map
          (fun e => (ch, e.1, e.2))) := by
  induction chans with
  | nil => rfl
  | cons ch rest ih =>
    simp only [handleChannels, handleSubs_error_eq_false h,
      Bool.false_eq_true, if_false, List.flatMap_cons]
    rw [handleSubs_dispatched_eq h, ih]

/-- The matching policy claimed by the spec: exact equality with the
repository homepage for push / tag-push / note events, substring
occurrence in the object-attributes URL for issue / merge-request
events. -/
def MatchPolicy (et : EventType) (url : String) (p : Payload) : Prop :=
  match et with
  | .push | .tagPush | .note => url = p.repository_homepage
  | .issue | .mergeRequest => strContains p.object_attributes_url url = true

theorem matchesSub_eq_true_iff (et : EventType) (url : String) (p : Payload) :
    matchesSub et url p = true ↔ MatchPolicy et url p := by
  cases et <;> simp [matchesSub, MatchPolicy]

/-- C1: for every incoming event and every subscribed (channel, slug, url)
entry, when the event type is Push Hook, Tag Push Hook, or Note Hook the
entry is dispatched if and only if its projectURL equals the payload's
repository.homepage exactly; when it is Issue Hook or Merge Request Hook,
if and only if the projectURL occurs as a substring of the payload's
object_attributes.url.  (Stated over runs in which template expansion
succeeds, so no exception cuts the subscription loop short.) -/
theorem routing_match_iff (reg : Registry) (channels : List String)
    (projects : String → List (String × String))
    (headers : List (String × String)) (p : Payload)
    (hdr : String) (et : EventType) (ch slug url : String)
    (htot : RegTotal reg)
    (hhdr : lookupHeader headers "X-Gitlab-Event" = some hdr)
    (het : eventTypeOfHeader hdr = some et) :
    (ch, slug, url) ∈ (handle_payload reg channels projects headers p).dispatched ↔
      ch ∈ channels ∧ (slug, url) ∈ projects ch ∧ MatchPolicy et url p := by
  have hpl : handle_payload reg channels projects headers p =
      handleChannels reg et p projects channels := by
    unfold handle_payload
    rw [hhdr]
    simp only [het]
  rw [hpl, handleChannels_dispatched_eq htot,
    ← matchesSub_eq_true_iff et url p]
  simp only [List.mem_flatMap, List.mem_map, List.mem_filter]
  constructor
  · rintro ⟨ch', hch', e, ⟨he, hm⟩, heq⟩
    obtain ⟨s, u⟩ := e
    simp only [Prod.mk.injEq] at heq
    obtain ⟨rfl, rfl, rfl⟩ := heq
    exact ⟨hch', he, hm⟩
  · rintro ⟨hch, hmem, hcond⟩
    exact ⟨ch, hch, (slug, url), ⟨hmem, hcond⟩, rfl⟩

/-- A registry whose every format string is a single literal: it expands
against any context. -/
def litReg : Registry := fun _ _ => [.lit "msg"]

theorem litReg_total : RegTotal litReg := fun _ _ _ => rfl

/-- A sample commit as GitLab sends it in a push payload. -/
def demoCommit : Commit := ⟨"0123456789abcdef", []⟩

/-- A sample decoded push/issue payload for the project at
https://git.example.com/team/app. -/
def demoPayload : Payload :=
  ⟨"https://git.example.com/team/app",
   "https://git.example.com/team/app/issues/42", 7, [demoCommit],
   [("user_name", .str "alice")]⟩

/-- A sample subscription table: channel #dev announces the project. -/
def demoProjects : String → List (String × String) := fun c =>
  if c == "#dev" then [("app", "https://git.example.com/team/app")] else []

/-- Witness for C1: the #dev subscription is dispatched for a push event
whose repository homepage equals its projectURL exactly. -/
theorem routing_match_iff_witness :
    ("#dev", "app", "https://git.example.com/team/app") ∈
        (handle_payload litReg ["#dev"] demoProjects
          [("X-Gitlab-Event", "Push Hook")] demoPayload).dispatched ↔
      "#dev" ∈ ["#dev"] ∧
        ("app", "https://git.example.com/team/app") ∈ demoProjects "#dev" ∧
        MatchPolicy .push "https://git.example.com/team/app" demoPayload :=
  routing_match_iff litReg ["#dev"] demoProjects
    [("X-Gitlab-Event", "Push Hook")] demoPayload "Push Hook" .push
    "#dev" "app" "https://git.example.com/team/app" litReg_total rfl rfl

theorem sendCommits_map (reg : Registry) (ch slug : String) (pid : Nat)
    (f : Commit → String) :
    ∀ cs : List Commit,
      (∀ c ∈ cs,
        renderParts (reg ch "commit") (commitCtx pid slug c) = some (f c)) →
      sendCommits reg ch slug pid cs = ⟨cs.map (fun c => (ch, f c)), false⟩
  | [], _ => rfl
  | c :: cs, h => by
    have hc := h c (List.mem_cons_self c cs)
    simp only [sendCommits, hc]
    rw [sendCommits_map reg ch slug pid f cs
      (fun c' hc' => h c' (List.mem_cons_of_mem _ hc'))]
    rfl

/-- C2: a matched push event with N commits produces exactly N+1 messages
to the channel: first the summary from the push template, then one message
per commit in payload order from the commit template, whose render context
binds short_id to the first 10 characters of the commit id and project to
the object with the payload's project_id and the subscription slug.
(Hypotheses: the two templates expand on the given contexts, so no
KeyError interrupts the sequence.) -/
theorem push_event_messages (reg : Registry) (ch slug : String) (p : Payload)
    (m0 : String) (f : Commit → String)
    (h0 : renderParts (reg ch "push") (pushCtx slug p) = some m0)
    (hc : ∀ c ∈ p.commits,
      renderParts (reg ch "commit") (commitCtx p.project_id slug c) = some (f c)) :
    (pushHook reg ch slug p).sent =
        (ch, m0) :: p.commits.map (fun c => (ch, f c)) ∧
      (pushHook reg ch slug p).sent.length = p.commits.length + 1 ∧
      ∀ c ∈ p.commits,
        lookupCtx (commitCtx p.project_id slug c) "short_id" =
            some (.str ⟨c.id.data.take 10⟩) ∧
          lookupCtx (commitCtx p.project_id slug c) "project" =
            some (.obj [("id", .nat p.project_id), ("name", .str slug)]) := by
  have hsent : (pushHook reg ch slug p).sent =
      (ch, m0) :: p.commits.map (fun c => (ch, f c)) := by
    simp only [pushHook, h0]
    rw [sendCommits_map reg ch slug p.project_id f p.commits hc]
  refine ⟨hsent, ?_, ?_⟩
  · rw [hsent]
    simp
  · intro c _
    exact ⟨rfl, rfl⟩

/-- A registry with a literal push template and a commit template that
substitutes the short_id placeholder. -/
def demoReg : Registry := fun _ ident =>
  if ident == "commit" then [.hole "short_id" none] else [.lit "summary"]

/-- A second sample commit with an id shorter than 10 characters. -/
def demoCommitB : Commit := ⟨"bbb2", []⟩

/-- A sample push payload carrying two commits. -/
def demoPush : Payload :=
  ⟨"https://git.example.com/team/app", "", 7, [demoCommit, demoCommitB], []⟩

/-- Witness for C2: a push with two commits yields exactly three messages,
summary first, then the commits in payload order. -/
theorem push_event_messages_witness :
    (pushHook demoReg "#dev" "app" demoPush).sent =
        ("#dev", "summary") :: demoPush.commits.map (fun c => ("#dev", shortId c.id)) ∧
      (pushHook demoReg "#dev" "app" demoPush).sent.length =
        demoPush.commits.length + 1 ∧
      ∀ c ∈ demoPush.commits,
        lookupCtx (commitCtx demoPush.project_id "app" c) "short_id" =
            some (.str ⟨c.id.data.take 10⟩) ∧
          lookupCtx (commitCtx demoPush.project_id "app" c) "project" =
            some (.obj [("id", .nat demoPush.project_id), ("name", .str "app")]) :=
  push_event_messages demoReg "#dev" "app" demoPush "summary"
    (fun c => shortId c.id) rfl
    (by
      intro c h
      simp only [demoPush, List.mem_cons, List.not_mem_nil, or_false] at h
      rcases h with rfl | rfl <;> rfl)

theorem doPost_path_nil (net : String) (channels : List String)
    (projects : String → List (String × String)) (reg : Registry)
    (headers : List (String × String)) (path : String) (body : Option Payload)
    (hpath : pathParts path = []) :
    doPost net channels projects reg headers path body =
      ⟨[.err403 pathErrorMsg], []⟩ := by
  unfold doPost
  rw [hpath]

theorem doPost_path_single (net : String) (channels : List String)
    (projects : String → List (String × String)) (reg : Registry)
    (headers : List (String × String)) (path : String) (body : Option Payload)
    (a : String) (hpath : pathParts path = [a]) :
    doPost net channels projects reg headers path body =
      ⟨[.err403 pathErrorMsg], []⟩ := by
  unfold doPost
  rw [hpath]

theorem doPost_path_cons (net : String) (channels : List String)
    (projects : String → List (String × String)) (reg : Registry)
    (headers : List (String × String)) (path : String) (body : Option Payload)
    (network chanName : String) (rest : List String)
    (hpath : pathParts path = network :: chanName :: rest) :
    doPost net channels projects reg headers path body =
      (if !(net == network) || !(channels.contains ("#" ++ chanName)) then
        ⟨[], []⟩
      else
        match body with
        | none =>
          ⟨[.err403 invalidJsonMsg, .err403 invalidDataMsg, .ok200 "OK"], []⟩
        | some p =>
          let r := handle_payload reg channels projects headers p
          if r.error then ⟨[.err403 invalidDataMsg, .ok200 "OK"], r.sent⟩
          else ⟨[.ok200 "OK"], r.sent⟩) := by
  unfold doPost
  rw [hpath]

/-- A registry whose push template references a placeholder that no push
context contains, while its commit template is a plain literal. -/
def badPushReg : Registry := fun _ ident =>
  if ident == "push" then [.hole "nonexistent" none] else [.lit "commitmsg"]

/-- C3 counterexample: with a faulty push template and a perfectly fine
commit template, a matched push event with one commit produces no messages
at all — the commit message is not produced even though its own template
expands — and the failure is surfaced to the sender as a 403 error
response.  This refutes the claim that only the single failing message is
skipped, that sibling messages are still produced, and that the failure is
never propagated as an error response. -/
theorem render_error_counterexample :
    (doPost "mynet" ["#dev"] demoProjects badPushReg
        [("X-Gitlab-Event", "Push Hook")] "/mynet/dev"
        (some demoPayload)).sent = [] ∧
      (doPost "mynet" ["#dev"] demoProjects badPushReg
        [("X-Gitlab-Event", "Push Hook")] "/mynet/dev"
        (some demoPayload)).responses =
        [.err403 invalidDataMsg, .ok200 "OK"] :=
  ⟨rfl, rfl⟩

/-- C3 amended: a template-expansion failure raises out of the handler and
is caught and logged at the dispatcher, so it never crashes the request;
but it aborts all remaining messages of the request (messages enqueued
before the failure remain enqueued), and it is surfaced to the sender as a
403 invalid-data response which — the `except` branch not returning — is
followed by a 200 OK. -/
theorem render_error_amended (net : String) (channels : List String)
    (projects : String → List (String × String)) (reg : Registry)
    (headers : List (String × String)) (path : String) (p : Payload)
    (network chanName : String) (rest : List String)
    (hpath : pathParts path = network :: chanName :: rest)
    (hnet : (net == network) = true)
    (hchan : ("#" ++ chanName) ∈ channels)
    (herr : (handle_payload reg channels projects headers p).error = true) :
    (doPost net channels projects reg headers path (some p)).responses =
        [.err403 invalidDataMsg, .ok200 "OK"] ∧
      (doPost net channels projects reg headers path (some p)).sent =
        (handle_payload reg channels projects headers p).sent := by
  rw [doPost_path_cons net channels projects reg headers path (some p)
    network chanName rest hpath]
  simp [hnet, hchan, herr]

/-- Witness for the amended C3 at the counterexample's concrete input. -/
theorem render_error_amended_witness :
    (doPost "mynet" ["#dev"] demoProjects badPushReg
        [("X-Gitlab-Event", "Push Hook")] "/mynet/dev"
        (some demoPayload)).responses =
        [.err403 invalidDataMsg, .ok200 "OK"] ∧
      (doPost "mynet" ["#dev"] demoProjects badPushReg
        [("X-Gitlab-Event", "Push Hook")] "/mynet/dev"
        (some demoPayload)).sent =
        (handle_payload badPushReg ["#dev"] demoProjects
          [("X-Gitlab-Event", "Push Hook")] demoPayload).sent :=
  render_error_amended "mynet" ["#dev"] demoProjects badPushReg
    [("X-Gitlab-Event", "Push Hook")] "/mynet/dev" demoPayload
    "mynet" "dev" [] rfl rfl (by decide) rfl

/-- C4: at a POST whose body is not valid JSON (path and scope checks
passing), the code does send the 403 invalid-JSON response and enqueues
nothing — but the branch does not return, so the subsequent
handle_payload call on the unassigned local raises, is caught and
answered with a second 403, and control still reaches _send_ok, sending a
200 OK on the same request, contradicting the claim that no 200 OK is
sent. -/
theorem invalid_json_response_trace :
    doPost "mynet" ["#dev"] (fun _ => []) litReg [] "/mynet/dev" none =
      ⟨[.err403 invalidJsonMsg, .err403 invalidDataMsg, .ok200 "OK"], []⟩ :=
  rfl

/-- C5 counterexample: the path /a/b/c is not of the form
/<network>/<channel-name>, yet the handler does not respond 403; the split
yields three components, the first two are taken as network and channel,
and the scope check silently drops the request (no response at all).
This refutes the claim for paths with extra components. -/
theorem path_form_counterexample :
    (doPost "mynet" [] (fun _ => []) litReg [] "/a/b/c"
      (some demoPayload)).responses = [] :=
  rfl

/-- C5 amended: the handler responds 403 with the explanatory message and
performs no further processing exactly when the split path yields fewer
than two components after the leading slash; a path with two or more
components is never rejected with the path error — its first two
components are used as network and channel and the rest are ignored. -/
theorem path_validation_amended (net : String) (channels : List String)
    (projects : String → List (String × String)) (reg : Registry)
    (headers : List (String × String)) (path : String)
    (body : Option Payload) :
    ((pathParts path).length < 2 →
      doPost net channels projects reg headers path body =
        ⟨[.err403 pathErrorMsg], []⟩) ∧
      (2 ≤ (pathParts path).length →
        Resp.err403 pathErrorMsg ∉
          (doPost net channels projects reg headers path body).responses) := by
  cases hp : pathParts path with
  | nil =>
    refine ⟨fun _ => ?_, fun h2 => ?_⟩
    · exact doPost_path_nil net channels projects reg headers path body hp
    · simp at h2
  | cons a t =>
    cases t with
    | nil =>
      refine ⟨fun _ => ?_, fun h2 => ?_⟩
      · exact doPost_path_single net channels projects reg headers path body
          a hp
      · simp at h2
    | cons b t2 =>
      refine ⟨fun hlt => ?_, fun _ => ?_⟩
      · simp at hlt
        omega
      · rw [doPost_path_cons net channels projects reg headers path body
          a b t2 hp]
        split
        · decide
        · split
          · decide
          · rename_i p
            cases hb : (handle_payload reg channels projects headers p).error <;>
              simp [hb, pathErrorMsg, invalidDataMsg]

/-- Witness for the amended C5: a one-component path is rejected with the
path error; a two-component path is never answered with the path error. -/
theorem path_validation_amended_witness :
    doPost "mynet" [] (fun _ => []) litReg [] "/onlynet" none =
        ⟨[.err403 pathErrorMsg], []⟩ ∧
      Resp.err403 pathErrorMsg ∉
        (doPost "mynet" [] (fun _ => []) litReg [] "/x/y" none).responses :=
  ⟨(path_validation_amended "mynet" [] (fun _ => []) litReg [] "/onlynet"
      none).1 (by decide),
    (path_validation_amended "mynet" [] (fun _ => []) litReg [] "/x/y"
      none).2 (by decide)⟩

/-- C6: when the path has a network and channel component, the scope check
passes, the body is valid JSON, and dispatch completes without an escaping
exception, the handler answers exactly one 200 response with body OK —
including when no subscription matches and nothing is enqueued. -/
theorem dispatch_ok_response (net : String) (channels : List String)
    (projects : String → List (String × String)) (reg : Registry)
    (headers : List (String × String)) (path : String) (p : Payload)
    (network chanName : String) (rest : List String)
    (hpath : pathParts path = network :: chanName :: rest)
    (hnet : (net == network) = true)
    (hchan : ("#" ++ chanName) ∈ channels)
    (hok : (handle_payload reg channels projects headers p).error = false) :
    (doPost net channels projects reg headers path (some p)).responses =
      [.ok200 "OK"] := by
  rw [doPost_path_cons net channels projects reg headers path (some p)
    network chanName rest hpath]
  simp [hnet, hchan, hok]

/-- Witness for C6: a push event that no subscription matches is still
answered 200 OK, with zero chat messages enqueued. -/
theorem dispatch_ok_response_witness :
    (doPost "mynet" ["#dev"] (fun _ => []) litReg
        [("X-Gitlab-Event", "Push Hook")] "/mynet/dev"
        (some demoPayload)).responses = [.ok200 "OK"] ∧
      (doPost "mynet" ["#dev"] (fun _ => []) litReg
        [("X-Gitlab-Event", "Push Hook")] "/mynet/dev"
        (some demoPayload)).sent = [] :=
  ⟨dispatch_ok_response "mynet" ["#dev"] (fun _ => []) litReg
      [("X-Gitlab-Event", "Push Hook")] "/mynet/dev" demoPayload
      "mynet" "dev" [] rfl rfl (by decide) rfl,
    rfl⟩

/-- C7: a request whose X-Gitlab-Event header is absent, or whose value is
not one of the five supported literals, is a silent no-op: handle_payload
dispatches nothing, enqueues nothing, and raises nothing, and the sender
still receives the 200 OK acknowledgment rather than a hard error. -/
theorem unsupported_event_noop (reg : Registry) (channels : List String)
    (projects : String → List (String × String))
    (headers : List (String × String)) (p : Payload)
    (hbad : lookupHeader headers "X-Gitlab-Event" = none ∨
      ∃ v, lookupHeader headers "X-Gitlab-Event" = some v ∧
        eventTypeOfHeader v = none) :
    handle_payload reg channels projects headers p = ⟨[], [], false⟩ ∧
      ∀ net path network chanName rest,
        pathParts path = network :: chanName :: rest →
        (net == network) = true →
        ("#" ++ chanName) ∈ channels →
        (doPost net channels projects reg headers path (some p)).responses =
          [.ok200 "OK"] := by
  have hnoop : handle_payload reg channels projects headers p =
      ⟨[], [], false⟩ := by
    unfold handle_payload
    rcases hbad with h | ⟨v, hv, hev⟩
    · rw [h]
    · rw [hv]
      simp only [hev]
  refine ⟨hnoop, ?_⟩
  intro net path network chanName rest hpath hnet hchan
  rw [doPost_path_cons net channels projects reg headers path (some p)
    network chanName rest hpath]
  simp [hnet, hchan, hnoop]

/-- Witness for C7: an unrecognized Build Hook header is dropped silently
and the request is still acknowledged with 200 OK. -/
theorem unsupported_event_noop_witness :
    handle_payload litReg ["#dev"] demoProjects
        [("X-Gitlab-Event", "Build Hook")] demoPayload = ⟨[], [], false⟩ ∧
      (doPost "mynet" ["#dev"] demoProjects litReg
        [("X-Gitlab-Event", "Build Hook")] "/mynet/dev"
        (some demoPayload)).responses = [.ok200 "OK"] := by
  have h := unsupported_event_noop litReg ["#dev"] demoProjects
    [("X-Gitlab-Event", "Build Hook")] demoPayload
    (Or.inr ⟨"Build Hook", rfl, rfl⟩)
  exact ⟨h.1, h.2 "mynet" "/mynet/dev" "mynet" "dev" [] rfl rfl (by decide)⟩

/-- C8: add fails with the duplicate error exactly when the slug is
already announced to the channel, and otherwise succeeds and stores the
slug-url pair; remove fails with the not-registered error exactly when the
slug is absent, and otherwise succeeds and deletes the slug; and after two
adds of distinct slugs and one remove, list returns exactly the remaining
entry. -/
theorem subscription_store_contract (ps : Projects)
    (slug url s1 s2 u1 u2 : String) (hne : s1 ≠ s2) :
    ((addCmd ps slug url).reply =
        .errored "This project is already announced to this channel." ↔
      hasSlug ps slug = true) ∧
      (hasSlug ps slug = false →
        (addCmd ps slug url).reply = .success ∧
          (slug, url) ∈ (addCmd ps slug url).projects) ∧
      ((removeCmd ps slug).reply =
          .errored "This project is not registered to this channel." ↔
        hasSlug ps slug = false) ∧
      (hasSlug ps slug = true →
        (removeCmd ps slug).reply = .success ∧
          hasSlug (removeCmd ps slug).projects slug = false) ∧
      listCmd (removeCmd (addCmd (addCmd [] s1 u1).projects s2 u2).projects
        s1).projects = [(s2, u2)] := by
  refine ⟨?_, ?_, ?_, ?_, ?_⟩
  · cases h : hasSlug ps slug <;> simp [addCmd, h]
  · intro h
    simp [addCmd, h]
  · cases h : hasSlug ps slug <;> simp [removeCmd, h]
  · intro h
    refine ⟨by simp [removeCmd, h], ?_⟩
    simp only [removeCmd, h, Bool.not_true, Bool.false_eq_true, if_false]
    simp [hasSlug, List.any_eq_true, List.mem_filter]
  · simp [addCmd, removeCmd, listCmd, hasSlug, hne, Ne.symm hne]

/-- Witness for C8: a duplicate add is refused, and the add-add-remove
scenario leaves exactly the remaining entry. -/
theorem subscription_store_contract_witness :
    ((addCmd [("app", "u")] "app" "v").reply =
        .errored "This project is already announced to this channel." ↔
      hasSlug [("app", "u")] "app" = true) ∧
      listCmd (removeCmd (addCmd (addCmd [] "app1" "url1").projects
        "app2" "url2").projects "app1").projects = [("app2", "url2")] :=
  ⟨(subscription_store_contract [("app", "u")] "app" "v" "app1" "app2"
      "url1" "url2" (by decide)).1,
    (subscription_store_contract [("app", "u")] "app" "v" "app1" "app2"
      "url1" "url2" (by decide)).2.2.2.2⟩

/-- C9: a failed add (duplicate slug) and a failed remove (absent slug)
leave the stored mapping for the channel completely unchanged, and no
save of the registry value is performed on the error path. -/
theorem failed_mutation_atomic (ps : Projects) (slug url : String) :
    ((addCmd ps slug url).reply ≠ .success →
      (addCmd ps slug url).projects = ps ∧ (addCmd ps slug url).saved = false) ∧
      ((removeCmd ps slug).reply ≠ .success →
        (removeCmd ps slug).projects = ps ∧
          (removeCmd ps slug).saved = false) := by
  constructor
  · intro h
    cases hs : hasSlug ps slug
    · exact absurd (by simp [addCmd, hs]) h
    · simp [addCmd, hs]
  · intro h
    cases hs : hasSlug ps slug
    · simp [removeCmd, hs]
    · exact absurd (by simp [removeCmd, hs]) h

/-- Witness for C9: a duplicate add and a remove of an absent slug both
leave the store untouched and unsaved. -/
theorem failed_mutation_atomic_witness :
    ((addCmd [("app", "u")] "app" "v").projects = [("app", "u")] ∧
        (addCmd [("app", "u")] "app" "v").saved = false) ∧
      ((removeCmd [] "app").projects = [] ∧
        (removeCmd [] "app").saved = false) :=
  ⟨(failed_mutation_atomic [("app", "u")] "app" "v").1 (by decide),
    (failed_mutation_atomic [] "app" "v").2 (by decide)⟩

/-- C10: computing a commit's short_id never fails: it is the prefix of
the commit id of length min(10, length of the id), and an id of at most
10 characters is returned whole. -/
theorem short_id_total (id : String) :
    (shortId id).length = min 10 id.length ∧
      (shortId id).data ++ id.data.drop 10 = id.data ∧
      (id.length ≤ 10 → shortId id = id) := by
  refine ⟨?_, ?_, ?_⟩
  · exact List.length_take 10 id.data
  · exact List.take_append_drop 10 id.data
  · intro h
    have ht : id.data.take 10 = id.data := List.take_of_length_le h
    show (⟨id.data.take 10⟩ : String) = id
    rw [ht]

/-- Witness for C10: a 4-character commit id is returned unchanged. -/
theorem short_id_total_witness :
    (shortId "bbb2").length = min 10 ("bbb2" : String).length ∧
      shortId "bbb2" = "bbb2" :=
  ⟨(short_id_total "bbb2").1, (short_id_total "bbb2").2.2 (by decide)⟩

end GitlabPlugin
